import Mathlib

/-!
# Signify — verification of the input-integrity and persistence pipeline

Shallow embedding of the Signify core (keystroke capture, batching buffer,
integrity guard, autosave scheduler, and the server-side draft store) together
with theorems settling the specified properties.

JS strings are modelled as `List Char` where their contents matter (draft
content), and as Lean `String` where they are opaque payload (error messages,
event types).  JS timestamps (`performance.now()`, server clock) are modelled
as `Nat` ticks.
-/

namespace Signify

/-! ## JS string helpers (server word count, client content normalization) -/

/-- JS `String.prototype.trim`: drop whitespace from both ends. -/
def jsTrim (s : List Char) : List Char :=
  ((s.dropWhile Char.isWhitespace).reverse.dropWhile Char.isWhitespace).reverse

/-- JS `content.split(/\s+/)`, up to empty tokens: we split at every whitespace
character, while the JS regex splits at maximal whitespace runs.  The two
differ only in the empty tokens they produce, and the one caller filters all
empty tokens out (`.filter(word => word.length > 0)`), so the filtered result
is identical. -/
def splitWs : List Char → List (List Char)
  | [] => [[]]
  | c :: cs =>
    if c.isWhitespace then
      [] :: splitWs cs
    else
      match splitWs cs with
      | [] => [[c]]
      | t :: ts => (c :: t) :: ts

/-- Server-side word count, from the drafts route:
`body.content.trim().split(/\s+/).filter(word => word.length > 0).length`. -/
def wordCountOf (content : List Char) : Nat :=
  ((splitWs (jsTrim content)).filter (fun w => decide (0 < w.length))).length

/-! ## Draft Store (server): data model -/

/-- One element of the submitted `keystrokes` array
(`SaveDraftRequest.keystrokes`): timestamp, character, event type. -/
structure KeystrokeIn where
  timestamp : Nat
  character : Option String
  event_type : String
deriving DecidableEq

/-- One row of the `drafts` table baked by the route (columns used by the
handler; `created_at` is defaulted by the database and never read back). -/
structure Draft where
  id : Nat
  user_id : Nat
  title : Option String
  content : List Char
  word_count : Nat
  last_saved_at : Nat
deriving DecidableEq

/-- The database state seen by the drafts route: the `drafts` table, the
`draft_keystroke_events` table (rows in insertion order, keyed by draft id),
and the next id the database will generate for an inserted draft. -/
structure DbState where
  drafts : List Draft
  log : List (Nat × KeystrokeIn)
  nextId : Nat
deriving DecidableEq

/-- The persisted keystroke log of one draft, in insertion order. -/
def logFor (db : DbState) (draftId : Nat) : List KeystrokeIn :=
  (db.log.filter (fun r => r.1 == draftId)).map Prod.snd

/-- Request body of `POST /draft` (`SaveDraftRequest`). A JSON body with the
`content` field absent behaves like the empty string under the route's
`if (!body.content)` check, so absence is modelled as `[]`. -/
structure SaveDraftRequest where
  title : Option String
  content : List Char
  keystrokes : List KeystrokeIn
  draftId : Option Nat
deriving DecidableEq

/-- Outcome of `POST /draft` as seen by the caller: either a success payload
(`{draftId, savedAt, wordCount}`, HTTP 200) or an HTTP error status with the
route's error string. -/
inductive SaveDraftResult where
  | ok (draftId : Nat) (savedAt : Nat) (wordCount : Nat)
  | err (status : Nat) (message : String)
deriving DecidableEq

/-- The individual SQL statements the route issues through `db.query`. -/
inductive Stmt where
  | updateDraft (title : Option String) (content : List Char) (wc : Nat)
      (now : Nat) (id : Nat) (uid : Nat)
  | insertDraft (uid : Nat) (title : Option String) (content : List Char)
      (wc : Nat) (now : Nat)
  | deleteLog (draftId : Nat)
  | insertLog (draftId : Nat) (events : List KeystrokeIn)
deriving DecidableEq

/-- Effect of one statement on the database.
* `updateDraft` is the conditional `UPDATE drafts ... WHERE id AND user_id`;
* `insertDraft` is `INSERT INTO drafts ... RETURNING *` (id = `nextId`);
* `deleteLog` is `DELETE FROM draft_keystroke_events WHERE draft_id`;
* `insertLog` is the bulk `INSERT INTO draft_keystroke_events`. -/
def execStmt : Stmt → DbState → DbState
  | .updateDraft t c wc now i uid, db =>
    { db with drafts := db.drafts.map (fun d =>
        if d.id = i ∧ d.user_id = uid then
          { d with title := t, content := c, word_count := wc, last_saved_at := now }
        else d) }
  | .insertDraft uid t c wc now, db =>
    { db with drafts := db.drafts ++ [⟨db.nextId, uid, t, c, wc, now⟩],
              nextId := db.nextId + 1 }
  | .deleteLog i, db =>
    { db with log := db.log.filter (fun r => !(r.1 == i)) }
  | .insertLog i es, db =>
    { db with log := db.log ++ es.map (fun e => (i, e)) }

/-- Number of rows the conditional UPDATE would affect
(`updateResult.rows.length` of the `RETURNING *`). -/
def updateMatches (db : DbState) (i uid : Nat) : Nat :=
  (db.drafts.filter (fun d => d.id == i && d.user_id == uid)).length

/-- The `POST /draft` handler.  Each `db.query` call is sent independently on
the pool — the handler opens no transaction (no BEGIN/COMMIT anywhere), so
every statement commits on its own.  The first component is therefore the list
of *committed* database states, one after each statement the handler executed
(the last being the final state); the second is the HTTP result. -/
def saveDraftRoute (req : SaveDraftRequest) (uid now : Nat) (db : DbState) :
    List DbState × SaveDraftResult :=
  if req.content = [] then
    ([], .err 400 "Content is required")
  else
    let wc := wordCountOf req.content
    match req.draftId with
    | some i =>
      let db1 := execStmt (.updateDraft req.title req.content wc now i uid) db
      if updateMatches db i uid = 0 then
        ([db1], .err 404 "Draft not found or access denied")
      else
        let db2 := execStmt (.deleteLog i) db1
        if req.keystrokes.isEmpty then
          ([db1, db2], .ok i now wc)
        else
          ([db1, db2, execStmt (.insertLog i req.keystrokes) db2], .ok i now wc)
    | none =>
      let i := db.nextId
      let db1 := execStmt (.insertDraft uid req.title req.content wc now) db
      let db2 := execStmt (.deleteLog i) db1
      if req.keystrokes.isEmpty then
        ([db1, db2], .ok i now wc)
      else
        ([db1, db2, execStmt (.insertLog i req.keystrokes) db2], .ok i now wc)

/-- Final committed database state and HTTP result of a full, uninterrupted
run of the handler. -/
def saveDraftFinal (req : SaveDraftRequest) (uid now : Nat) (db : DbState) :
    DbState × SaveDraftResult :=
  let r := saveDraftRoute req uid now db
  (r.1.getLastD db, r.2)

/-- Database state left behind if a database error aborts the handler after
its first `k` queries have committed: since every statement auto-commits and
there is no transaction to roll back, exactly those `k` statements remain
applied.  The catch block then answers `500 "Failed to save draft"`. -/
def saveInterruptedAfter (req : SaveDraftRequest) (uid now : Nat)
    (db : DbState) (k : Nat) : DbState :=
  (db :: (saveDraftRoute req uid now db).1).getD k db

/-! ## Autosave Scheduler (client, `useAutoSave`) -/

/-- Constant `MAX_RETRIES = 5` from `useAutoSave`. -/
def MAX_RETRIES : Nat := 5

/-- Constant `BASE_RETRY_DELAY = 1000` (1 second, in milliseconds) from
`useAutoSave`. -/
def BASE_RETRY_DELAY : Nat := 1000

/-- Client-visible `SaveStatus.state` with the surfaced error message
attached. -/
inductive SaveState where
  | idle
  | saving
  | saved (lastSaved : Nat)
  | error (message : String)
deriving DecidableEq

/-- The mutable state of one `useAutoSave` instance: `saveStatus`,
`retryCountRef`, `lastSaveRef` (trimmed content of the last successful save,
initially the empty string), the `enabled` option, `isUnloadingRef`, and a
ghost counter of the `fetch` calls issued so far (observable network calls).
The sticky draft-id bookkeeping (`internalDraftId` / localStorage) is not
modelled: no claim here depends on it. -/
structure SchedulerState where
  status : SaveState
  retryCount : Nat
  lastSave : List Char
  enabled : Bool
  isUnloading : Bool
  networkCalls : Nat
deriving DecidableEq

/-- What the environment answers to one save attempt:
* `noToken` — `localStorage` has no `auth_token`, so `saveDraft` throws before
  any `fetch`;
* `ok` — `response.ok`, with the parsed `SaveDraftResponse`;
* `httpError` — `!response.ok`, so `saveDraft` throws `Error(errorData.error)`
  (the HTTP status decides nothing beyond `ok`);
* `netError` — the `fetch` itself rejects. -/
inductive FetchOutcome where
  | noToken
  | ok (draftId : String) (savedAt : Nat)
  | httpError (status : Nat) (message : String)
  | netError (message : String)
deriving DecidableEq

/-- The catch block's retry logic: if fewer than `MAX_RETRIES` retries have
been scheduled so far, compute the backoff delay
`BASE_RETRY_DELAY * 2 ^ retryCountRef.current`, increment the counter and arm
a `setTimeout(saveDraft, delay)`.  Returns the new state and the delay of the
retry armed by this call, if any. -/
def retryLogic (st : SchedulerState) : SchedulerState × Option Nat :=
  if st.retryCount < MAX_RETRIES then
    ({ st with retryCount := st.retryCount + 1 },
     some (BASE_RETRY_DELAY * 2 ^ st.retryCount))
  else (st, none)

/-- One invocation of `saveDraft`, given the outcome the network environment
would produce for its request.  Mirrors the source in order: the
`!enabled || isUnloading` guard, the empty-content guard, the
`currentContent === lastSaveRef.current` short-circuit (all three return with
nothing done — no status transition, no `fetch`), then the transition to
`saving`, the request, and either the success path (`saved`, `lastSaveRef`
update, retry counter reset) or the catch path (`error` status plus
`retryLogic`).  The returned `Option Nat` is the backoff delay of the retry
this call armed, if any. -/
def saveDraft (content : List Char) (outcome : FetchOutcome)
    (st : SchedulerState) : SchedulerState × Option Nat :=
  if st.enabled = false ∨ st.isUnloading = true then (st, none)
  else
    let current := jsTrim content
    if current = [] then (st, none)
    else if current = st.lastSave then (st, none)
    else
      match outcome with
      | .noToken =>
        retryLogic { st with status := .error "No authentication token found" }
      | .ok _ savedAt =>
        ({ st with status := .saved savedAt, lastSave := current,
                   retryCount := 0, networkCalls := st.networkCalls + 1 }, none)
      | .httpError _ msg =>
        retryLogic { st with status := .error msg,
                             networkCalls := st.networkCalls + 1 }
      | .netError msg =>
        retryLogic { st with status := .error msg,
                             networkCalls := st.networkCalls + 1 }

/-- A chain of consecutive failing attempts from one trigger: run `saveDraft`
against a network that keeps failing, and whenever the catch block arms a
retry timer, let it fire (`enabled` still true, not unloading) and recurse.
`n` bounds how many attempts the environment will serve.  The content and the
failure message stay fixed, matching a client whose network is down.  Returns
the final state and the backoff delays of the retries that were armed, in
order. -/
def failedAttempts : Nat → List Char → String → SchedulerState →
    SchedulerState × List Nat
  | 0, _, _, st => (st, [])
  | n + 1, content, msg, st =>
    match saveDraft content (.netError msg) st with
    | (st1, some d) =>
      let r := failedAttempts n content msg st1
      (r.1, d :: r.2)
    | (st1, none) => (st1, [])

/-! ## Batching Buffer (client, `useKeystrokeCapture`) -/

/-- A classified `KeystrokeEvent` of the capture pipeline (shared types):
id, timestamp, canonical character, event type, cursor position, special-key
flag. -/
structure CapturedEvent where
  id : String
  timestamp : Nat
  character : String
  eventType : String
  cursorPosition : Nat
  isSpecialKey : Bool
deriving DecidableEq

/-- State of the batching side of `useKeystrokeCapture`: `batchRef.current`,
whether `batchTimeoutRef.current` holds a pending flush timeout, the batches
already handed to `onBatch` in emission order, and whether the effect cleanup
has run. -/
structure BufferState where
  batch : List CapturedEvent
  timerPending : Bool
  emitted : List (List CapturedEvent)
  disposed : Bool
deriving DecidableEq

/-- The events of all emitted batches, concatenated in emission order. -/
def emittedConcat (st : BufferState) : List CapturedEvent :=
  st.emitted.flatten

/-- Source `addEvent`: push the event onto `batchRef.current` and, if no flush
timeout is pending, arm one.  After the cleanup has run the listeners are
removed, so no further events arrive. -/
def addEvent (e : CapturedEvent) (st : BufferState) : BufferState :=
  if st.disposed then st
  else
    let st1 := { st with batch := st.batch ++ [e] }
    if st1.timerPending then st1 else { st1 with timerPending := true }

/-- The pending flush timeout fires: if the batch is non-empty, hand a copy to
`onBatch` and clear `batchRef.current`; either way `batchTimeoutRef.current`
becomes null.  A timeout cleared by the cleanup never fires. -/
def flushTimerFire (st : BufferState) : BufferState :=
  if st.timerPending = true ∧ st.disposed = false then
    if st.batch = [] then { st with timerPending := false }
    else { st with emitted := st.emitted ++ [st.batch], batch := [],
                   timerPending := false }
  else st

/-- The effect cleanup on unmount/teardown: remove the listeners and
`clearTimeout` the pending flush timeout.  `batchRef.current` is left as it
is — the events still buffered are neither emitted nor handed to the caller. -/
def cleanup (st : BufferState) : BufferState :=
  { st with timerPending := false, disposed := true }

/-- One interleaving step of the capture component's single-threaded
execution. -/
inductive BufferOp where
  | add (e : CapturedEvent)
  | fire
  | dispose
deriving DecidableEq

/-- Run a sequence of steps. -/
def bufferRun (ops : List BufferOp) (st : BufferState) : BufferState :=
  ops.foldl (fun s op =>
    match op with
    | .add e => addEvent e s
    | .fire => flushTimerFire s
    | .dispose => cleanup s) st

/-- Initial buffer state of a freshly mounted capture component. -/
def initBuffer : BufferState := ⟨[], false, [], false⟩

/-! ## Integrity Guard (client, `usePastePrevention`) -/

/-- A `SecurityEvent` record. -/
structure SecurityEvent where
  type : String
  timestamp : Nat
  blocked : Bool
  details : String
deriving DecidableEq

/-- State of one `usePastePrevention` instance: `securityEventsRef` (bounded
ring of the last 100 events), `lastInputTimeRef`, `inputLengthRef`, and the
`enableLogging` option (default true). -/
structure GuardState where
  securityEvents : List SecurityEvent
  lastInputTime : Nat
  inputLength : Nat
  enableLogging : Bool
deriving DecidableEq

/-- Source `logSecurityEvent`: when logging is enabled, push the event and keep only
the last 100 entries (`slice(-100)`); the `onSecurityEvent` callback is
outside the state. -/
def logSecurityEvent (st : GuardState) (e : SecurityEvent) : GuardState :=
  if st.enableLogging then
    let es := st.securityEvents ++ [e]
    { st with securityEvents :=
        if 100 < es.length then es.drop (es.length - 100) else es }
  else st

/-- Source `handleBeforeInput` on a pre-insertion signal with the given `inputType`
and `data` (`none` models a null `event.data`; the empty string is falsy in
the source's `event.data` test).  `textLen` is `element.textContent.length`.
Returns the new state and whether `preventDefault` was called. -/
def handleBeforeInput (inputType : String) (data : Option String)
    (now textLen : Nat) (st : GuardState) : GuardState × Bool :=
  if inputType = "insertFromPaste" ∨ inputType = "insertFromDrop" ∨
      inputType = "insertReplacementText" then
    (logSecurityEvent st
      ⟨"beforeinput", now, true, "Input type: " ++ inputType⟩, true)
  else if inputType = "insertText" then
    match data with
    | some d =>
      if d = "" then (st, false)
      else if 1 < d.length then
        (logSecurityEvent st
          ⟨"bulk_insertion", now, true,
           "Multi-character insertion blocked: " ++ toString d.length ++
             " chars"⟩, true)
      else ({ st with lastInputTime := now, inputLength := textLen }, false)
    | none => (st, false)
  else (st, false)

/-! ## Concrete fixtures used by witnesses and counterexamples -/

/-- A submitted keystroke: character a, keydown, t = 0. -/
def eA : KeystrokeIn := ⟨0, some "a", "keydown"⟩

/-- A submitted keystroke: character b, keydown, t = 5. -/
def eB : KeystrokeIn := ⟨5, some "b", "keydown"⟩

/-- A database holding one draft (id 1, owner 7) whose persisted log is
`[eA]`. -/
def dbOne : DbState := ⟨[⟨1, 7, none, "hi".toList, 1, 0⟩], [(1, eA)], 2⟩

/-- A save request updating draft 1 with new content and log `[eB]`. -/
def reqB : SaveDraftRequest := ⟨none, "hi there".toList, [eB], some 1⟩

/-- A freshly mounted autosave scheduler: idle, no retries, nothing saved. -/
def freshSched : SchedulerState := ⟨.idle, 0, [], true, false, 0⟩

/-- The scheduler state after one failing attempt: error surfaced, one more
network call issued, retry counter bumped. -/
def nextFail (msg : String) (s : SchedulerState) : SchedulerState :=
  { s with status := .error msg, networkCalls := s.networkCalls + 1,
           retryCount := s.retryCount + 1 }

/-- A classified keydown event. -/
def sampleEvent : CapturedEvent := ⟨"keystroke_0", 0, "a", "keydown", 0, false⟩

/-! ## Helper lemmas -/

theorem filter_beq_after_delete (l : List (Nat × KeystrokeIn)) (i : Nat) :
    (l.filter (fun r => !(r.1 == i))).filter (fun r => r.1 == i) = [] := by
  induction l with
  | nil => rfl
  | cons a l ih =>
    by_cases hai : a.1 = i
    · simp [List.filter_cons, hai, ih]
    · simp [List.filter_cons, hai, ih]

theorem logFor_after_replace (l : List (Nat × KeystrokeIn)) (i : Nat)
    (es : List KeystrokeIn) :
    (((l.filter (fun r => !(r.1 == i))) ++ es.map (fun e => (i, e))).filter
        (fun r => r.1 == i)).map Prod.snd = es := by
  rw [List.filter_append, filter_beq_after_delete]
  have h2 : (es.map (fun e => (i, e))).filter (fun r => r.1 == i) =
      es.map (fun e => (i, e)) := by
    induction es with
    | nil => rfl
    | cons e es ih => simp [List.filter, ih]
  rw [List.nil_append, h2, List.map_map]
  simp

theorem map_snd_filter_self (i : Nat) (es : List KeystrokeIn) :
    ((es.map (fun e => (i, e))).filter (fun r => r.1 == i)).map Prod.snd
      = es := by
  induction es with
  | nil => rfl
  | cons e es ih => simp [List.filter_cons, ih]

theorem wordCountOf_whitespace (s : List Char)
    (hws : ∀ c ∈ s, c.isWhitespace) : wordCountOf s = 0 := by
  have h1 : jsTrim s = [] := by
    have hd : s.dropWhile Char.isWhitespace = [] :=
      List.dropWhile_eq_nil_iff.mpr hws
    simp [jsTrim, hd]
  unfold wordCountOf
  rw [h1]
  rfl

/-! ## Claim theorems -/

/-- C1 counterexample.  The save of `reqB` (draft 1, old log `[eA]`, submitted
log `[eB]`) commits three independent statements; the state committed after the
delete and before the bulk insert has an empty log for draft 1 — neither the
old log `[eA]` nor the new log `[eB]` — so an observer between the two
statements sees a partially-replaced log, and a database error at the bulk
insert leaves the log emptied rather than unchanged (the handler then answers
500).  This refutes the claimed single-transaction all-or-nothing replace. -/
theorem save_replace_transactional_cex :
    ((saveDraftRoute reqB 7 3 dbOne).1.map (fun s => logFor s 1)) =
      [[eA], [], [eB]] ∧
    logFor (saveInterruptedAfter reqB 7 3 dbOne 2) 1 = [] ∧
    logFor dbOne 1 = [eA] ∧
    ([] : List KeystrokeIn) ≠ [eA] ∧ ([] : List KeystrokeIn) ≠ [eB] ∧
    (saveDraftFinal reqB 7 3 dbOne).2 = .ok 1 3 2 := by
  decide

/-- C3 counterexample.  From a fresh scheduler with unsaved content, a network
that keeps failing draws **six** save attempts out of a single trigger — the
retry armed after the fifth failed attempt fires with a 16 s backoff delay —
refuting the claimed cap of 5 attempts in total with delays 1 s, 2 s, 4 s,
8 s and no 6th attempt. -/
theorem retry_five_attempt_cap_cex :
    (failedAttempts 10 ("hi".toList) "fetch failed" freshSched).1.networkCalls
        = 6 ∧
    (failedAttempts 10 ("hi".toList) "fetch failed" freshSched).2 =
      [1000, 2000, 4000, 8000, 16000] := by
  decide

/-- C4.  The failing input for the teardown contract: one classified event is
captured and the component is unmounted before the 100 ms flush timer fires.
The cleanup clears the pending timeout and leaves the event in
`batchRef.current`: no batch is ever emitted (a later timer fire is a no-op on
the cleared timeout), so the concatenation of emitted batches is `[]` and the
buffered event is silently lost instead of being flushed or handed to the
caller. -/
theorem buffer_teardown_drops_buffered_events :
    (bufferRun [.add sampleEvent, .dispose] initBuffer).batch = [sampleEvent] ∧
    emittedConcat (bufferRun [.add sampleEvent, .dispose] initBuffer) = [] ∧
    bufferRun [.add sampleEvent, .dispose, .fire] initBuffer =
      bufferRun [.add sampleEvent, .dispose] initBuffer ∧
    emittedConcat (bufferRun [.add sampleEvent, .dispose] initBuffer) ≠
      [sampleEvent] := by
  decide

/-- C7 counterexample.  Terminal failures are retried: when the server answers
with the validation error (400) or the collapsed not-found/not-owned error
(404), the scheduler's catch block schedules a 1 s backoff retry exactly as it
would for a transient failure — refuting the claim that such failures are
never retried. -/
theorem retry_terminal_failures_cex :
    (saveDraft ("hi".toList)
        (.httpError 404 "Draft not found or access denied") freshSched).2 =
      some 1000 ∧
    (saveDraft ("hi".toList)
        (.httpError 400 "Content is required") freshSched).2 = some 1000 ∧
    (saveDraft ("hi".toList)
        (.httpError 404 "Draft not found or access denied") freshSched).1.status
      = .error "Draft not found or access denied" := by
  decide

/-- C8 counterexample.  Two consecutive save attempts with identical normalized
content issue **two** network calls when the first attempt fails: a failed
attempt does not update `lastSaveRef`, so the second attempt is not
short-circuited.  This refutes the unconditional at-most-one-network-call
consequence. -/
theorem idempotent_two_calls_cex :
    (saveDraft ("hi".toList) (.netError "fetch failed")
        (saveDraft ("hi".toList) (.netError "fetch failed") freshSched).1
      ).1.networkCalls = 2 := by
  decide

/-- Characterization of every successful save: the returned word count is the
server-side recomputation from the submitted content, the returned timestamp
is the server clock, and the persisted log of the returned draft id equals
exactly the submitted keystrokes array. -/
theorem saveDraftFinal_ok_spec (req : SaveDraftRequest) (uid now : Nat)
    (db : DbState) (d sa wc : Nat)
    (h : (saveDraftFinal req uid now db).2 = .ok d sa wc) :
    wc = wordCountOf req.content ∧ sa = now ∧
    logFor (saveDraftFinal req uid now db).1 d = req.keystrokes := by
  by_cases hc : req.content = []
  · simp [saveDraftFinal, saveDraftRoute, hc] at h
  · cases hid : req.draftId with
    | some i =>
      by_cases hm : updateMatches db i uid = 0
      · simp [saveDraftFinal, saveDraftRoute, hc, hid, hm] at h
      · by_cases hk : req.keystrokes.isEmpty
        · simp [saveDraftFinal, saveDraftRoute, hc, hid, hm, hk] at h
          obtain ⟨h1, h2, h3⟩ := h
          subst h1; subst h2; subst h3
          refine ⟨rfl, rfl, ?_⟩
          simp [saveDraftFinal, saveDraftRoute, hc, hid, hm, hk,
            List.getLastD, logFor, execStmt, filter_beq_after_delete,
            List.isEmpty_iff.mp hk]
        · simp [saveDraftFinal, saveDraftRoute, hc, hid, hm, hk] at h
          obtain ⟨h1, h2, h3⟩ := h
          subst h1; subst h2; subst h3
          refine ⟨rfl, rfl, ?_⟩
          simp [saveDraftFinal, saveDraftRoute, hc, hid, hm, hk,
            List.getLastD, logFor, execStmt]
          exact map_snd_filter_self i req.keystrokes
    | none =>
      by_cases hk : req.keystrokes.isEmpty
      · simp [saveDraftFinal, saveDraftRoute, hc, hid, hk] at h
        obtain ⟨h1, h2, h3⟩ := h
        subst h1; subst h2; subst h3
        refine ⟨rfl, rfl, ?_⟩
        simp [saveDraftFinal, saveDraftRoute, hc, hid, hk,
          List.getLastD, logFor, execStmt, filter_beq_after_delete,
          List.isEmpty_iff.mp hk]
      · simp [saveDraftFinal, saveDraftRoute, hc, hid, hk] at h
        obtain ⟨h1, h2, h3⟩ := h
        subst h1; subst h2; subst h3
        refine ⟨rfl, rfl, ?_⟩
        simp [saveDraftFinal, saveDraftRoute, hc, hid, hk,
          List.getLastD, logFor, execStmt]
        exact map_snd_filter_self db.nextId req.keystrokes

/-- C2.  After any successful save, the persisted keystroke log of the
returned draft equals exactly the submitted `keystrokes` array, in order —
the previous log is gone — for every submitted array, the empty one
included. -/
theorem save_log_replaced (req : SaveDraftRequest) (uid now : Nat)
    (db : DbState) (d sa wc : Nat)
    (h : (saveDraftFinal req uid now db).2 = .ok d sa wc) :
    logFor (saveDraftFinal req uid now db).1 d = req.keystrokes :=
  (saveDraftFinal_ok_spec req uid now db d sa wc h).2.2

/-- C2 witness: saving `reqB` over draft 1 (old log `[eA]`) leaves exactly
`[eB]` as the persisted log. -/
theorem save_log_replaced_witness :
    logFor (saveDraftFinal reqB 7 3 dbOne).1 1 = [eB] :=
  save_log_replaced reqB 7 3 dbOne 1 3 2 (by decide)

/-- C9.  The word count returned by every successful save is recomputed
server-side from the submitted content as the whitespace-delimited token
count; nothing the client submits besides `content` enters the
computation. -/
theorem save_wordCount_server_side (req : SaveDraftRequest) (uid now : Nat)
    (db : DbState) (d sa wc : Nat)
    (h : (saveDraftFinal req uid now db).2 = .ok d sa wc) :
    wc = wordCountOf req.content :=
  (saveDraftFinal_ok_spec req uid now db d sa wc h).1

/-- C9 witness: a fresh save of content Hello world returns word count 2, and
one of Hello world wide web returns word count 4. -/
theorem save_wordCount_server_side_witness :
    2 = wordCountOf ("Hello world".toList) ∧
    4 = wordCountOf ("Hello world wide web".toList) :=
  ⟨save_wordCount_server_side ⟨none, "Hello world".toList, [], none⟩ 7 5
      ⟨[], [], 1⟩ 1 5 2 (by decide),
   save_wordCount_server_side ⟨none, "Hello world wide web".toList, [], none⟩
      7 5 ⟨[], [], 1⟩ 1 5 4 (by decide)⟩

theorem updateMatches_eq_zero (db : DbState) (i uid : Nat)
    (h : ∀ d ∈ db.drafts, ¬ (d.id = i ∧ d.user_id = uid)) :
    updateMatches db i uid = 0 := by
  unfold updateMatches
  rw [List.length_eq_zero]
  apply List.filter_eq_nil_iff.mpr
  intro d hd
  simpa using h d hd

theorem execUpdate_noop (db : DbState) (t : Option String) (c : List Char)
    (wc now i uid : Nat)
    (h : ∀ d ∈ db.drafts, ¬ (d.id = i ∧ d.user_id = uid)) :
    execStmt (.updateDraft t c wc now i uid) db = db := by
  simp only [execStmt]
  have hmap : db.drafts.map (fun d =>
      if d.id = i ∧ d.user_id = uid then
        { d with title := t, content := c, word_count := wc,
                 last_saved_at := now }
      else d) = db.drafts := by
    have := List.map_congr_left (l := db.drafts)
      (f := fun d => if d.id = i ∧ d.user_id = uid then
        { d with title := t, content := c, word_count := wc,
                 last_saved_at := now } else d)
      (g := id) (fun d hd => if_neg (h d hd))
    simpa using this
  rw [hmap]

/-- C6.  Saving with a `draftId` that does not exist and saving with a
`draftId` owned by a different user produce the very same error response
(404, same collapsed error string) and mutate nothing, so the caller cannot
tell non-existence from non-ownership. -/
theorem save_notfound_indistinguishable (req : SaveDraftRequest)
    (uid now : Nat) (dbA dbB : DbState) (i : Nat)
    (hc : req.content ≠ []) (hid : req.draftId = some i)
    (hA : ∀ d ∈ dbA.drafts, ¬ d.id = i)
    (hB : ∀ d ∈ dbB.drafts, d.id = i → ¬ d.user_id = uid) :
    saveDraftFinal req uid now dbA =
      (dbA, .err 404 "Draft not found or access denied") ∧
    saveDraftFinal req uid now dbB =
      (dbB, .err 404 "Draft not found or access denied") ∧
    (saveDraftFinal req uid now dbA).2 = (saveDraftFinal req uid now dbB).2 := by
  have hA2 : ∀ d ∈ dbA.drafts, ¬ (d.id = i ∧ d.user_id = uid) :=
    fun d hd hh => hA d hd hh.1
  have hB2 : ∀ d ∈ dbB.drafts, ¬ (d.id = i ∧ d.user_id = uid) :=
    fun d hd hh => hB d hd hh.1 hh.2
  have ha : saveDraftFinal req uid now dbA =
      (dbA, .err 404 "Draft not found or access denied") := by
    simp [saveDraftFinal, saveDraftRoute, hc, hid,
      updateMatches_eq_zero dbA i uid hA2, List.getLastD,
      execUpdate_noop dbA req.title req.content (wordCountOf req.content)
        now i uid hA2]
  have hb : saveDraftFinal req uid now dbB =
      (dbB, .err 404 "Draft not found or access denied") := by
    simp [saveDraftFinal, saveDraftRoute, hc, hid,
      updateMatches_eq_zero dbB i uid hB2, List.getLastD,
      execUpdate_noop dbB req.title req.content (wordCountOf req.content)
        now i uid hB2]
  exact ⟨ha, hb, by rw [ha, hb]⟩

/-- C6 witness: for caller 9, draft 1 exists in `dbOne` but is owned by user
7, and does not exist at all in the empty database; both saves answer the
identical 404. -/
theorem save_notfound_indistinguishable_witness :
    saveDraftFinal reqB 9 3 ⟨[], [], 1⟩ =
      (⟨[], [], 1⟩, .err 404 "Draft not found or access denied") ∧
    saveDraftFinal reqB 9 3 dbOne =
      (dbOne, .err 404 "Draft not found or access denied") ∧
    (saveDraftFinal reqB 9 3 ⟨[], [], 1⟩).2 = (saveDraftFinal reqB 9 3 dbOne).2 :=
  save_notfound_indistinguishable reqB 9 3 ⟨[], [], 1⟩ dbOne 1
    (by decide) rfl (by decide) (by decide)

/-- C10.  The route's validation (`if (!body.content)`) rejects only an absent
or empty-string content: whitespace-only content passes, is persisted
verbatim, and its server-computed word count is 0 because tokenization filters
out empty tokens. -/
theorem save_whitespace_content (s : List Char) (t : Option String)
    (ks : List KeystrokeIn) (uid now : Nat) (db : DbState)
    (hne : s ≠ []) (hws : ∀ c ∈ s, c.isWhitespace) :
    (saveDraftFinal ⟨t, s, ks, none⟩ uid now db).2 = .ok db.nextId now 0 ∧
    (saveDraftFinal ⟨t, s, ks, none⟩ uid now db).1.drafts =
      db.drafts ++ [⟨db.nextId, uid, t, s, 0, now⟩] ∧
    (saveDraftFinal ⟨t, [], ks, none⟩ uid now db).2 =
      .err 400 "Content is required" := by
  have hwc := wordCountOf_whitespace s hws
  refine ⟨?_, ?_, ?_⟩
  · by_cases hk : ks.isEmpty <;>
      simp [saveDraftFinal, saveDraftRoute, hne, hwc, hk, List.getLastD]
  · by_cases hk : ks.isEmpty <;>
      simp [saveDraftFinal, saveDraftRoute, execStmt, hne, hwc, hk,
        List.getLastD]
  · simp [saveDraftFinal, saveDraftRoute]

/-- C10 witness: content of two spaces is accepted, persisted, and counted as
0 words, while empty content is rejected with the 400 validation error. -/
theorem save_whitespace_content_witness :
    (saveDraftFinal ⟨none, "  ".toList, [], none⟩ 7 5 ⟨[], [], 1⟩).2 =
      .ok 1 5 0 ∧
    (saveDraftFinal ⟨none, "  ".toList, [], none⟩ 7 5 ⟨[], [], 1⟩).1.drafts =
      [⟨1, 7, none, "  ".toList, 0, 5⟩] ∧
    (saveDraftFinal ⟨none, [], [], none⟩ 7 5 ⟨[], [], 1⟩).2 =
      .err 400 "Content is required" := by
  have h := save_whitespace_content ("  ".toList) none [] 7 5 ⟨[], [], 1⟩
    (by decide) (by decide)
  exact ⟨h.1, h.2.1, h.2.2⟩

/-- C1 amended.  The delete and the bulk insert are two separate auto-commit
statements with no enclosing transaction: between them the committed state has
an empty log for the draft (observable by any concurrent reader), and a
database error at the bulk insert leaves exactly that state behind — the old
log deleted, nothing inserted — while the handler answers 500. -/
theorem save_replace_two_statements (req : SaveDraftRequest) (uid now : Nat)
    (db : DbState) (i : Nat)
    (hc : req.content ≠ []) (hid : req.draftId = some i)
    (hm : updateMatches db i uid ≠ 0) (hk : ¬ req.keystrokes.isEmpty) :
    ∃ mid : DbState,
      (saveDraftRoute req uid now db).1[1]? = some mid ∧
      logFor mid i = [] ∧
      saveInterruptedAfter req uid now db 2 = mid := by
  refine ⟨execStmt (.deleteLog i)
    (execStmt (.updateDraft req.title req.content (wordCountOf req.content)
      now i uid) db), ?_, ?_, ?_⟩
  · simp [saveDraftRoute, hc, hid, hm, hk]
  · simp [logFor, execStmt, filter_beq_after_delete]
  · simp [saveInterruptedAfter, saveDraftRoute, hc, hid, hm, hk]

/-- C1 amended witness: the concrete run of `reqB` over `dbOne` exhibits the
committed intermediate state with the emptied log. -/
theorem save_replace_two_statements_witness :
    ∃ mid : DbState,
      (saveDraftRoute reqB 7 3 dbOne).1[1]? = some mid ∧
      logFor mid 1 = [] ∧
      saveInterruptedAfter reqB 7 3 dbOne 2 = mid :=
  save_replace_two_statements reqB 7 3 dbOne 1 (by decide) rfl (by decide)
    (by decide)

theorem saveDraft_netError_retry (content : List Char) (msg : String)
    (s : SchedulerState) (he : s.enabled = true) (hu : s.isUnloading = false)
    (hc : jsTrim content ≠ []) (hl : s.lastSave = [])
    (h5 : s.retryCount < 5) :
    saveDraft content (.netError msg) s =
      (nextFail msg s, some (1000 * 2 ^ s.retryCount)) := by
  simp [saveDraft, he, hu, hc, hl, retryLogic, MAX_RETRIES, BASE_RETRY_DELAY,
    nextFail, h5]

theorem saveDraft_netError_stop (content : List Char) (msg : String)
    (s : SchedulerState) (he : s.enabled = true) (hu : s.isUnloading = false)
    (hc : jsTrim content ≠ []) (hl : s.lastSave = [])
    (h5 : ¬ s.retryCount < 5) :
    saveDraft content (.netError msg) s =
      ({ s with status := .error msg,
                networkCalls := s.networkCalls + 1 }, none) := by
  simp [saveDraft, he, hu, hc, hl, retryLogic, MAX_RETRIES, BASE_RETRY_DELAY,
    h5]

theorem failedAttempts_succ_retry (n : Nat) (content : List Char)
    (msg : String) (s : SchedulerState) (he : s.enabled = true)
    (hu : s.isUnloading = false) (hc : jsTrim content ≠ [])
    (hl : s.lastSave = []) (h5 : s.retryCount < 5) :
    failedAttempts (n + 1) content msg s =
      ((failedAttempts n content msg (nextFail msg s)).1,
       1000 * 2 ^ s.retryCount ::
         (failedAttempts n content msg (nextFail msg s)).2) := by
  simp [failedAttempts, saveDraft_netError_retry content msg s he hu hc hl h5]

theorem failedAttempts_succ_stop (n : Nat) (content : List Char)
    (msg : String) (s : SchedulerState) (he : s.enabled = true)
    (hu : s.isUnloading = false) (hc : jsTrim content ≠ [])
    (hl : s.lastSave = []) (h5 : ¬ s.retryCount < 5) :
    failedAttempts (n + 1) content msg s =
      ({ s with status := .error msg,
                networkCalls := s.networkCalls + 1 }, []) := by
  simp [failedAttempts, saveDraft_netError_stop content msg s he hu hc hl h5]

/-- C3 amended.  Backoff starts at 1 s and doubles per retry, but the retry
cap allows up to **6** attempts in total from one trigger (the initial attempt
plus `MAX_RETRIES = 5` retries, with inter-attempt delays 1 s, 2 s, 4 s, 8 s,
16 s); after the 6th consecutive failed attempt the scheduler stays in the
Error state and arms no further retry until a new trigger occurs. -/
theorem retry_backoff_six_attempts (m : Nat) (content : List Char)
    (msg : String) (st : SchedulerState) (he : st.enabled = true)
    (hu : st.isUnloading = false) (hc : jsTrim content ≠ [])
    (hl : st.lastSave = []) (hr : st.retryCount = 0) :
    (failedAttempts (m + 6) content msg st).1.networkCalls =
      st.networkCalls + 6 ∧
    (failedAttempts (m + 6) content msg st).2 =
      [1000, 2000, 4000, 8000, 16000] ∧
    (failedAttempts (m + 6) content msg st).1.status = .error msg ∧
    (failedAttempts (m + 6) content msg st).1.retryCount = 5 := by
  have e1 : m + 6 = (m + 5) + 1 := rfl
  rw [e1, failedAttempts_succ_retry (m + 5) content msg st he hu hc hl
    (by omega)]
  have e2 : m + 5 = (m + 4) + 1 := rfl
  rw [e2, failedAttempts_succ_retry (m + 4) content msg (nextFail msg st)
    he hu hc hl (by simp [nextFail]; omega)]
  have e3 : m + 4 = (m + 3) + 1 := rfl
  rw [e3, failedAttempts_succ_retry (m + 3) content msg
    (nextFail msg (nextFail msg st)) he hu hc hl (by simp [nextFail]; omega)]
  have e4 : m + 3 = (m + 2) + 1 := rfl
  rw [e4, failedAttempts_succ_retry (m + 2) content msg
    (nextFail msg (nextFail msg (nextFail msg st))) he hu hc hl
    (by simp [nextFail]; omega)]
  have e5 : m + 2 = (m + 1) + 1 := rfl
  rw [e5, failedAttempts_succ_retry (m + 1) content msg
    (nextFail msg (nextFail msg (nextFail msg (nextFail msg st)))) he hu hc hl
    (by simp [nextFail, hr])]
  rw [failedAttempts_succ_stop m content msg
    (nextFail msg (nextFail msg (nextFail msg (nextFail msg
      (nextFail msg st))))) he hu hc hl (by simp [nextFail, hr])]
  simp [nextFail, hr]

/-- C3 amended witness: six consecutive failing attempts from a fresh
scheduler. -/
theorem retry_backoff_six_attempts_witness :
    (failedAttempts 6 ("hi".toList) "fetch failed" freshSched).1.networkCalls
        = 6 ∧
    (failedAttempts 6 ("hi".toList) "fetch failed" freshSched).2 =
      [1000, 2000, 4000, 8000, 16000] ∧
    (failedAttempts 6 ("hi".toList) "fetch failed" freshSched).1.status =
      .error "fetch failed" ∧
    (failedAttempts 6 ("hi".toList) "fetch failed" freshSched).1.retryCount
        = 5 :=
  retry_backoff_six_attempts 0 ("hi".toList) "fetch failed" freshSched rfl rfl
    (by decide) rfl rfl

/-- C7 amended.  The scheduler's catch block does not distinguish failure
kinds: an HTTP-error failure of any status (validation 400, authorization 404,
server 500) triggers exactly the same retry decision as a network failure —
retry with the backoff delay while fewer than `MAX_RETRIES` retries have been
made, none afterwards — and the error is surfaced via the Error state in all
cases. -/
theorem retry_ignores_failure_kind (content : List Char) (status : Nat)
    (msg msg2 : String) (st : SchedulerState) (he : st.enabled = true)
    (hu : st.isUnloading = false) (hc : jsTrim content ≠ [])
    (hl : jsTrim content ≠ st.lastSave) :
    (saveDraft content (.httpError status msg) st).2 =
      (saveDraft content (.netError msg2) st).2 ∧
    (saveDraft content (.httpError status msg) st).2 =
      (if st.retryCount < 5 then some (1000 * 2 ^ st.retryCount) else none) ∧
    (saveDraft content (.httpError status msg) st).1.status = .error msg := by
  by_cases h5 : st.retryCount < 5 <;>
    simp [saveDraft, he, hu, hc, hl, retryLogic, MAX_RETRIES,
      BASE_RETRY_DELAY, h5]

/-- C7 amended witness: the server-side validation error is retried exactly
like a network failure. -/
theorem retry_ignores_failure_kind_witness :
    (saveDraft ("hi".toList) (.httpError 400 "Content is required")
        freshSched).2 =
      (saveDraft ("hi".toList) (.netError "fetch failed") freshSched).2 ∧
    (saveDraft ("hi".toList) (.httpError 400 "Content is required")
        freshSched).2 =
      (if freshSched.retryCount < 5 then
        some (1000 * 2 ^ freshSched.retryCount) else none) ∧
    (saveDraft ("hi".toList) (.httpError 400 "Content is required")
        freshSched).1.status = .error "Content is required" :=
  retry_ignores_failure_kind ("hi".toList) 400 "Content is required"
    "fetch failed" freshSched rfl rfl (by decide) (by decide)

theorem saveDraft_noop_of_lastSave (content : List Char)
    (outcome : FetchOutcome) (st : SchedulerState)
    (h : jsTrim content = st.lastSave) :
    saveDraft content outcome st = (st, none) := by
  by_cases hg : st.enabled = false ∨ st.isUnloading = true
  · simp [saveDraft, hg]
  · by_cases hce : jsTrim content = []
    · simp [saveDraft, hg, hce]
    · have hce2 : st.lastSave ≠ [] := by rw [← h]; exact hce
      simp [saveDraft, hg, h, hce2]

/-- C8 amended.  When the normalized (trimmed) current content equals the
content recorded at the last successful save, `saveDraft` returns with the
state entirely unchanged and no network request or retry armed; consequently
two consecutive save attempts with identical normalized content perform at
most one network call **provided the first attempt succeeds** (a failed first
attempt does not update the last-saved snapshot, so the second attempt issues
another call). -/
theorem save_shortcircuit_amended :
    (∀ (content : List Char) (outcome : FetchOutcome) (st : SchedulerState),
      jsTrim content = st.lastSave → saveDraft content outcome st = (st, none))
    ∧
    (∀ (content : List Char) (d : String) (sa : Nat) (o2 : FetchOutcome)
        (st : SchedulerState),
      saveDraft content o2 (saveDraft content (.ok d sa) st).1 =
        ((saveDraft content (.ok d sa) st).1, none)) := by
  refine ⟨saveDraft_noop_of_lastSave, ?_⟩
  intro content d sa o2 st
  by_cases hg : st.enabled = false ∨ st.isUnloading = true
  · have h1 : saveDraft content (.ok d sa) st = (st, none) := by
      simp [saveDraft, hg]
    rw [h1]
    simp [saveDraft, hg]
  · by_cases hce : jsTrim content = []
    · have h1 : saveDraft content (.ok d sa) st = (st, none) := by
        simp [saveDraft, hg, hce]
      rw [h1]
      simp [saveDraft, hg, hce]
    · by_cases hls : jsTrim content = st.lastSave
      · have h1 := saveDraft_noop_of_lastSave content (.ok d sa) st hls
        rw [h1]
        exact saveDraft_noop_of_lastSave content o2 st hls
      · have h1 : (saveDraft content (.ok d sa) st).1.lastSave =
            jsTrim content := by
          simp [saveDraft, hg, hce, hls]
        exact saveDraft_noop_of_lastSave content o2 _ h1.symm

/-- C8 amended witness: a save whose trimmed content equals the last
successfully saved content is a complete no-op. -/
theorem save_shortcircuit_amended_witness :
    saveDraft ("hi".toList) (.netError "fetch failed")
      ⟨.idle, 0, "hi".toList, true, false, 0⟩ =
      (⟨.idle, 0, "hi".toList, true, false, 0⟩, none) :=
  save_shortcircuit_amended.1 ("hi".toList) (.netError "fetch failed")
    ⟨.idle, 0, "hi".toList, true, false, 0⟩ (by decide)

/-- C5.  On an atomic `insertText` pre-insertion signal the guard lets a
single-character insertion through unmodified — no `preventDefault`, no
`SecurityEvent`, only the rate-tracking refs updated — while a
multi-character insertion is blocked (`preventDefault`) and exactly one
`SecurityEvent` of type `bulk_insertion` with `blocked = true` is recorded in
the ring buffer. -/
theorem bulk_insertion_policy (d : String) (now textLen : Nat)
    (st : GuardState) (hlog : st.enableLogging = true) :
    (d.length = 1 →
      handleBeforeInput "insertText" (some d) now textLen st =
        ({ st with lastInputTime := now, inputLength := textLen }, false)) ∧
    (1 < d.length →
      (handleBeforeInput "insertText" (some d) now textLen st).2 = true ∧
      (handleBeforeInput "insertText" (some d) now textLen st).1.securityEvents
        = (let es := st.securityEvents ++
            [⟨"bulk_insertion", now, true,
              "Multi-character insertion blocked: " ++ toString d.length ++
                " chars"⟩]
           if 100 < es.length then es.drop (es.length - 100) else es)) := by
  constructor
  · intro h1
    have hne : d ≠ "" := by
      intro hd
      subst hd
      exact absurd h1 (by decide)
    have hnb : ¬ 1 < d.length := by omega
    simp [handleBeforeInput, hne, hnb]
  · intro h1
    have hne : d ≠ "" := by
      intro hd
      subst hd
      exact absurd h1 (by decide)
    simp [handleBeforeInput, hne, h1, logSecurityEvent, hlog]

/-- C5 witness: a two-character atomic insertion is blocked and recorded; a
one-character insertion passes untouched. -/
theorem bulk_insertion_policy_witness :
    handleBeforeInput "insertText" (some "a") 3 7 ⟨[], 0, 0, true⟩ =
      ({ securityEvents := [], lastInputTime := 3, inputLength := 7,
         enableLogging := true }, false) ∧
    (handleBeforeInput "insertText" (some "ab") 3 7 ⟨[], 0, 0, true⟩).2 =
      true ∧
    (handleBeforeInput "insertText" (some "ab") 3 7
        ⟨[], 0, 0, true⟩).1.securityEvents =
      [⟨"bulk_insertion", 3, true,
        "Multi-character insertion blocked: 2 chars"⟩] := by
  refine ⟨(bulk_insertion_policy "a" 3 7 ⟨[], 0, 0, true⟩ rfl).1 (by decide),
    ?_, ?_⟩
  · exact ((bulk_insertion_policy "ab" 3 7 ⟨[], 0, 0, true⟩ rfl).2
      (by decide)).1
  · exact ((bulk_insertion_policy "ab" 3 7 ⟨[], 0, 0, true⟩ rfl).2
      (by decide)).2

end Signify
